import Mathlib

/-!
Shallow embedding of the lap-based alarm stopwatch (the "current lap"
variant of the source). Timestamps and durations are `Int` milliseconds;
`Date.now()` becomes an explicit `now` argument, one reading per action,
matching the source's synchronous handlers. The JS `null` timestamp is an
`Option Int`, with `jsOpt` replicating the coercion `null ↦ 0` that JS
arithmetic performs. The audio side effect of the alarm check is made
explicit as the `Bool` component of `checkLapAlarms`.
-/

/-- A lap record, mirroring the lap object literal of the source:
`createdAt`, `recordedTime`, `alarmDuration`, `triggered`, `enabled`,
`isRecorded`. In the specification's vocabulary: `fired = triggered`,
`armed = enabled`, `closed = isRecorded`, `recordedElapsed = recordedTime`,
`alarmThreshold = alarmDuration`. -/
structure Lap where
  createdAt : Int
  recordedTime : Int
  alarmDuration : Int
  triggered : Bool
  enabled : Bool
  isRecorded : Bool
deriving Repr, DecidableEq, Inhabited

/-- The mutable `state` object of the source (`intervalId` and the DOM
references carry no core state and are omitted). -/
structure StopwatchState where
  isRunning : Bool
  elapsedTime : Int
  startTime : Option Int
  pausedTime : Int
  currentLapStartTime : Option Int
  laps : List Lap
deriving Repr, DecidableEq

/-- JS coercion of a possibly-`null` timestamp in arithmetic: `null ↦ 0`. -/
def jsOpt (x : Option Int) : Int := x.getD 0

/-- `state.defaultAlarmDurations` of the source: the literal millisecond
values `[1*60*1000, 1*60*1000, 1*60*1000, 5*60*1000, 5*60*1000]`. -/
def defaultAlarmDurations : List Int :=
  [60000, 60000, 60000, 300000, 300000]

/-- `state.defaultAlarmDurations[lapIndex] || 5 * 60 * 1000`: a missing
entry reads as `undefined` (here `0`) and `||` falls back to `300000`. -/
def defaultDurationFor (i : Nat) : Int :=
  let d := defaultAlarmDurations.getD i 0
  if d = 0 then 300000 else d

/-- The initial `state` literal of the source. -/
def initState : StopwatchState :=
  { isRunning := false, elapsedTime := 0, startTime := none,
    pausedTime := 0, currentLapStartTime := none, laps := [] }

/-- `startStopwatch()`: no-op when running; otherwise sets `isRunning`,
`startTime = now - pausedTime`, initializes `currentLapStartTime` on first
start, and auto-creates the first lap when the ledger is empty. -/
def startStopwatch (s : StopwatchState) (now : Int) : StopwatchState :=
  if s.isRunning then s
  else
    let st := now - s.pausedTime
    let s1 := { s with isRunning := true, startTime := some st }
    let s2 :=
      if s1.currentLapStartTime = none then
        { s1 with currentLapStartTime := some st }
      else s1
    if s2.laps.length = 0 then
      { s2 with laps := [{ createdAt := now, recordedTime := 0,
                           alarmDuration := defaultDurationFor 0,
                           triggered := false, enabled := true,
                           isRecorded := false }] }
    else s2

/-- `pauseStopwatch()`: no-op when not running; otherwise only clears
`isRunning` (and cancels the interval). It writes no timestamp field. -/
def pauseStopwatch (s : StopwatchState) : StopwatchState :=
  if s.isRunning then { s with isRunning := false } else s

/-- `resetStopwatch()`: clears every core field and empties the ledger. -/
def resetStopwatch (_s : StopwatchState) : StopwatchState :=
  { isRunning := false, elapsedTime := 0, startTime := none,
    pausedTime := 0, currentLapStartTime := none, laps := [] }

/-- `updateStopwatchDisplay()` (the per-tick clock refresh): when running,
stores `Date.now() - startTime` into both `pausedTime` and `elapsedTime`;
when paused it returns early. -/
def updateStopwatchDisplay (s : StopwatchState) (now : Int) : StopwatchState :=
  if s.isRunning then
    let e := now - jsOpt s.startTime
    { s with pausedTime := e, elapsedTime := e }
  else s

/-- The closing elapsed time computed at the top of `createLap()`:
`Date.now() - currentLapStartTime` when running, else
`pausedTime - (currentLapStartTime - startTime)`; `0` when the current-lap
timer was never started. -/
def currentLapRecordedTime (s : StopwatchState) (now : Int) : Int :=
  match s.currentLapStartTime with
  | none => 0
  | some c =>
    if s.isRunning then now - c
    else s.pausedTime - (c - jsOpt s.startTime)

/-- The in-place mutation `createLap()` applies to the ledger's last
record: a pending record is finalized (`recordedTime := max 0 r`,
`isRecorded := true`); either way `enabled` and `triggered` are cleared. -/
def closeLap (lap : Lap) (r : Int) : Lap :=
  if lap.isRecorded = false then
    { lap with recordedTime := max 0 r, isRecorded := true,
               enabled := false, triggered := false }
  else
    { lap with enabled := false, triggered := false }

/-- `createLap()`: guarded no-op when not running with an empty ledger;
otherwise computes the closing elapsed time, closes the last record,
appends a fresh record with the positional default alarm duration, and
re-anchors `currentLapStartTime` (to `now` when running, else to
`startTime + pausedTime`). -/
def createLap (s : StopwatchState) (now : Int) : StopwatchState :=
  if s.isRunning = false ∧ s.laps.length = 0 then s
  else
    let r := currentLapRecordedTime s now
    let closed :=
      if 0 < s.laps.length then
        s.laps.set (s.laps.length - 1)
          (closeLap (s.laps.getD (s.laps.length - 1) default) r)
      else s.laps
    let lapIndex := closed.length
    let newLap : Lap :=
      { createdAt := now, recordedTime := 0,
        alarmDuration := defaultDurationFor lapIndex,
        triggered := false, enabled := true, isRecorded := false }
    { s with laps := closed ++ [newLap],
             currentLapStartTime :=
               some (if s.isRunning then now else jsOpt s.startTime + s.pausedTime) }

/-- `getLapElapsedTime(lapIndex)`: `0` when the index is out of range;
otherwise `max 0 (mainElapsedTime - (lap.createdAt - startTime))`, where
`mainElapsedTime` is `Date.now() - startTime` when running and the stored
`pausedTime` when paused. -/
def getLapElapsedTime (s : StopwatchState) (now : Int) (lapIndex : Nat) : Int :=
  if s.laps.length ≤ lapIndex then 0
  else
    let lap := s.laps.getD lapIndex default
    let mainElapsedTime := if s.isRunning then now - jsOpt s.startTime else s.pausedTime
    max 0 (mainElapsedTime - (lap.createdAt - jsOpt s.startTime))

/-- `checkLapAlarms()`: inspects only the last record; returns early when
the ledger is empty, the alarm is disabled, or it already triggered;
otherwise, when the lap's elapsed time reaches the alarm duration, marks
it triggered and invokes playback. The `Bool` result records whether
`playAlarmSound()` was invoked on this evaluation. -/
def checkLapAlarms (s : StopwatchState) (now : Int) : StopwatchState × Bool :=
  if s.laps.length = 0 then (s, false)
  else
    let i := s.laps.length - 1
    let lap := s.laps.getD i default
    if lap.enabled = false ∨ lap.triggered = true then (s, false)
    else if lap.alarmDuration ≤ getLapElapsedTime s now i then
      ({ s with laps := s.laps.set i ({ lap with triggered := true }) }, true)
    else (s, false)

/-- `updateLapAlarmDuration(lapIndex, durationMs)`: in-range only; writes
the new duration and clears `triggered`. -/
def updateLapAlarmDuration (s : StopwatchState) (lapIndex : Nat) (durationMs : Int) :
    StopwatchState :=
  if lapIndex < s.laps.length then
    let lap := s.laps.getD lapIndex default
    let lap2 : Lap := { lap with alarmDuration := durationMs, triggered := false }
    { s with laps := s.laps.set lapIndex lap2 }
  else s

/-- `toggleLapAlarm(lapIndex)`: in-range only; flips `enabled` and clears
`triggered`. -/
def toggleLapAlarm (s : StopwatchState) (lapIndex : Nat) : StopwatchState :=
  if lapIndex < s.laps.length then
    let lap := s.laps.getD lapIndex default
    let lap2 : Lap := { lap with enabled := !lap.enabled, triggered := false }
    { s with laps := s.laps.set lapIndex lap2 }
  else s

/-- The discrete events that drive the state: the four user actions, one
periodic tick (`updateStopwatchDisplay` then `checkLapAlarms`, in the
source's interval-callback order), and the two per-lap alarm edits. -/
inductive UserAction where
  | start (now : Int)
  | pause
  | reset
  | lap (now : Int)
  | tick (now : Int)
  | setDuration (i : Nat) (d : Int)
  | toggle (i : Nat)
deriving Repr, DecidableEq

/-- One event step. The `Option Nat` is the index the alarm fired for on
this step (playback invoked), `none` when no playback happened; only a
tick can fire, since `playAlarmSound()` is reached only from
`checkLapAlarms()`. -/
def stepFired (s : StopwatchState) (a : UserAction) : StopwatchState × Option Nat :=
  match a with
  | .start now => (startStopwatch s now, none)
  | .pause => (pauseStopwatch s, none)
  | .reset => (resetStopwatch s, none)
  | .lap now => (createLap s now, none)
  | .tick now =>
    let s1 := updateStopwatchDisplay s now
    let p := checkLapAlarms s1 now
    (p.1, if p.2 then some (s1.laps.length - 1) else none)
  | .setDuration i d => (updateLapAlarmDuration s i d, none)
  | .toggle i => (toggleLapAlarm s i, none)

/-- Run a sequence of events, keeping the final state. -/
def runActions (s : StopwatchState) (acts : List UserAction) : StopwatchState :=
  acts.foldl (fun t a => (stepFired t a).1) s

/-- Whether some step of the sequence invokes playback for lap `i`. -/
def firesAt (s : StopwatchState) (acts : List UserAction) (i : Nat) : Bool :=
  match acts with
  | [] => false
  | a :: rest =>
    ((stepFired s a).2 == some i) || firesAt (stepFired s a).1 rest i

/-- Events that neither destroy lap `i` nor clear its alarm latch: all
events except `reset`, `toggle i` and `setDuration i _`. -/
def preservesFiredLatch (i : Nat) (a : UserAction) : Bool :=
  match a with
  | .reset => false
  | .toggle j => decide (j ≠ i)
  | .setDuration j _ => decide (j ≠ i)
  | _ => true

/-- Modelled from the spec:
`lapElapsed(index, now, clockState) = max(0, referenceElapsed − (lap.createdAt − clockStartEpoch))`,
where `referenceElapsed` is the main clock's current elapsed time
(`now − startEpoch`) when running, else its frozen accumulated elapsed;
an absent `startEpoch` reads as `0`, matching the JS `null` coercion. -/
def specLapElapsed (s : StopwatchState) (now : Int) (i : Nat) : Int :=
  let referenceElapsed := if s.isRunning then now - jsOpt s.startTime else s.pausedTime
  let lap := s.laps.getD i default
  max 0 (referenceElapsed - (lap.createdAt - jsOpt s.startTime))

/-- Claim C9: calling `createLap` when the stopwatch has never been
started (hence not running) and the ledger is empty is silently ignored:
the whole state is returned unchanged. -/
theorem createLap_noop_never_started (s : StopwatchState) (now : Int)
    (h1 : s.isRunning = false) (h2 : s.laps = []) :
    createLap s now = s := by
  unfold createLap
  rw [if_pos ⟨h1, by simp [h2]⟩]

theorem createLap_noop_never_started_witness :
    createLap initState 5 = initState :=
  createLap_noop_never_started initState 5 rfl rfl

/-- Claim C10: for an index at or beyond the ledger length the per-lap
operations are total and harmless: `getLapElapsedTime` returns `0`, and
`updateLapAlarmDuration` and `toggleLapAlarm` leave the state unchanged. -/
theorem out_of_range_lap_ops_harmless (s : StopwatchState) (now : Int) (i : Nat)
    (d : Int) (h : s.laps.length ≤ i) :
    getLapElapsedTime s now i = 0 ∧
    updateLapAlarmDuration s i d = s ∧
    toggleLapAlarm s i = s := by
  refine ⟨?_, ?_, ?_⟩
  · unfold getLapElapsedTime
    rw [if_pos h]
  · unfold updateLapAlarmDuration
    rw [if_neg (by omega)]
  · unfold toggleLapAlarm
    rw [if_neg (by omega)]

theorem out_of_range_lap_ops_harmless_witness :
    getLapElapsedTime initState 7 3 = 0 ∧
    updateLapAlarmDuration initState 3 42 = initState ∧
    toggleLapAlarm initState 3 = initState :=
  out_of_range_lap_ops_harmless initState 7 3 42 (by decide)

/-- Claim C4: `startStopwatch` when not running sets
`startTime = now - pausedTime`, so the elapsed time read immediately after
a resume (by the very next display refresh at the same instant) equals the
frozen `pausedTime` — pause duration does not leak into the elapsed time. -/
theorem resume_preserves_elapsed (s : StopwatchState) (now : Int)
    (h : s.isRunning = false) :
    (startStopwatch s now).startTime = some (now - s.pausedTime) ∧
    (startStopwatch s now).isRunning = true ∧
    (updateStopwatchDisplay (startStopwatch s now) now).elapsedTime = s.pausedTime := by
  by_cases hc : s.currentLapStartTime = none <;>
    by_cases hl : s.laps.length = 0 <;>
      simp [startStopwatch, updateStopwatchDisplay, h, hc, hl, jsOpt, sub_sub_cancel]

/-- Claim C1: for every in-range lap index and every clock state, the
source's `getLapElapsedTime` computes exactly the specification formula
`max(0, referenceElapsed − (lap.createdAt − clockStartEpoch))`, with
`referenceElapsed` the running clock's `now − startEpoch` or the frozen
accumulated elapsed when paused. -/
theorem lapElapsed_matches_spec_formula (s : StopwatchState) (now : Int) (i : Nat)
    (h : i < s.laps.length) :
    getLapElapsedTime s now i = specLapElapsed s now i := by
  unfold getLapElapsedTime specLapElapsed
  rw [if_neg (by omega)]

theorem lapElapsed_matches_spec_formula_witness :
    0 < (startStopwatch initState 0).laps.length ∧
    getLapElapsedTime (startStopwatch initState 0) 250 0 =
      specLapElapsed (startStopwatch initState 0) 250 0 :=
  ⟨by decide, lapElapsed_matches_spec_formula (startStopwatch initState 0) 250 0 (by decide)⟩

/-- Claim C5 counterexample: `pauseStopwatch` does not read the clock at
all, so it cannot freeze `now − startEpoch` at the pause instant. Run:
start at `t = 0` (so `startEpoch = 0`), last display tick at `t = 500`,
pause call at `t = 1000`. The claim demands the frozen accumulated
elapsed be `1000 − 0 = 1000`; the code leaves it at `500`, the value
written by the last tick. -/
theorem pause_does_not_sample_clock_cex :
    ((pauseStopwatch (updateStopwatchDisplay (startStopwatch initState 0) 500)).isRunning
      = false) ∧
    (pauseStopwatch (updateStopwatchDisplay (startStopwatch initState 0) 500)).pausedTime
      = 500 ∧
    jsOpt (pauseStopwatch (updateStopwatchDisplay (startStopwatch initState 0) 500)).startTime
      = 0 ∧
    (500 : Int) ≠ 1000 - 0 := by
  decide

/-- Claim C5 amended: `pauseStopwatch` while running sets
`isRunning = false` and nothing else — `pausedTime` (the accumulated
elapsed) keeps the value last written by the display tick, which computed
`now − startEpoch` at that tick, not at the pause instant. -/
theorem pause_freezes_last_tick_elapsed (s : StopwatchState) (now : Int)
    (h : s.isRunning = true) :
    (pauseStopwatch s).isRunning = false ∧
    (pauseStopwatch s).pausedTime = s.pausedTime ∧
    (pauseStopwatch s).startTime = s.startTime ∧
    (pauseStopwatch s).laps = s.laps ∧
    (updateStopwatchDisplay s now).pausedTime = now - jsOpt s.startTime := by
  unfold pauseStopwatch updateStopwatchDisplay
  rw [if_pos (by simp [h]), if_pos (by simp [h])]
  exact ⟨rfl, rfl, rfl, rfl, rfl⟩

theorem pause_freezes_last_tick_elapsed_witness :
    (startStopwatch initState 0).isRunning = true ∧
    (pauseStopwatch (startStopwatch initState 0)).isRunning = false ∧
    (updateStopwatchDisplay (startStopwatch initState 0) 800).pausedTime
      = 800 - jsOpt (startStopwatch initState 0).startTime :=
  ⟨by decide,
   (pause_freezes_last_tick_elapsed (startStopwatch initState 0) 800 (by decide)).1,
   (pause_freezes_last_tick_elapsed (startStopwatch initState 0) 800 (by decide)).2.2.2.2⟩

/-- Claim C8, evaluated at the failing input: start at `t = 0` (auto lap
0), tick at `t = 1000`, pause, record a lap at `t = 1000` (lap 0 is
frozen at `1000`, lap 1 opens), remain paused until `t = 11000`, resume.
While paused the new lap correctly reads `0`; but immediately after the
resume, at the very instant `t = 11000`, the new lap's elapsed time jumps
to `10000` — the whole wall-clock pause — instead of starting to advance
from `0` as the claim (and the source's own comment, "prevent jump on
resume") requires. -/
theorem resume_jump_code_eval :
    ((createLap (pauseStopwatch (updateStopwatchDisplay (startStopwatch initState 0) 1000))
        1000).laps.length = 2) ∧
    ((createLap (pauseStopwatch (updateStopwatchDisplay (startStopwatch initState 0) 1000))
        1000).laps.getD 0 default).recordedTime = 1000 ∧
    ((createLap (pauseStopwatch (updateStopwatchDisplay (startStopwatch initState 0) 1000))
        1000).laps.getD 0 default).isRecorded = true ∧
    getLapElapsedTime
      (createLap (pauseStopwatch (updateStopwatchDisplay (startStopwatch initState 0) 1000))
        1000) 5000 1 = 0 ∧
    getLapElapsedTime
      (startStopwatch
        (createLap (pauseStopwatch (updateStopwatchDisplay (startStopwatch initState 0) 1000))
          1000) 11000) 11000 1 = 10000 := by
  decide

theorem list_get?_eq_getD {α : Type} [Inhabited α] (l : List α) (i : Nat)
    (h : i < l.length) : l.get? i = some (l.getD i default) := by
  induction l generalizing i with
  | nil => simp at h
  | cons a t ih =>
    cases i with
    | zero => rfl
    | succ n =>
      have hn : n < t.length := by simpa using h
      simpa [List.getD] using ih n hn

/-- Claim C2: the alarm evaluation inspects only the active (last) lap;
playback is invoked if and only if that lap is enabled, not yet
triggered, and its elapsed time has reached the alarm duration (a tie
fires). On firing, exactly that record's `triggered` flag is set; when
nothing fires, the state is untouched. -/
theorem alarm_eval_active_lap_only (s : StopwatchState) (now : Int) :
    ((checkLapAlarms s now).2 = true ↔
      ∃ lap, s.laps.get? (s.laps.length - 1) = some lap ∧
        lap.enabled = true ∧ lap.triggered = false ∧
        lap.alarmDuration ≤ getLapElapsedTime s now (s.laps.length - 1)) ∧
    ((checkLapAlarms s now).2 = true →
      (checkLapAlarms s now).1.laps =
        s.laps.set (s.laps.length - 1)
          ({ s.laps.getD (s.laps.length - 1) default with triggered := true }) ∧
      (checkLapAlarms s now).1.isRunning = s.isRunning ∧
      (checkLapAlarms s now).1.startTime = s.startTime ∧
      (checkLapAlarms s now).1.pausedTime = s.pausedTime ∧
      (checkLapAlarms s now).1.currentLapStartTime = s.currentLapStartTime) ∧
    ((checkLapAlarms s now).2 = false → (checkLapAlarms s now).1 = s) := by
  simp only [checkLapAlarms]
  by_cases h0 : s.laps.length = 0
  · rw [if_pos h0]
    have hnil : s.laps = [] := List.length_eq_zero.mp h0
    refine ⟨⟨fun hf => by simp at hf, ?_⟩, fun hf => by simp at hf, fun _ => rfl⟩
    rintro ⟨lap, hlap, -⟩
    rw [hnil] at hlap
    simp at hlap
  · rw [if_neg h0]
    have hlt : s.laps.length - 1 < s.laps.length := by omega
    have hget := list_get?_eq_getD s.laps (s.laps.length - 1) hlt
    by_cases hcond : (s.laps.getD (s.laps.length - 1) default).enabled = false ∨
        (s.laps.getD (s.laps.length - 1) default).triggered = true
    · rw [if_pos hcond]
      refine ⟨⟨fun hf => by simp at hf, ?_⟩, fun hf => by simp at hf, fun _ => rfl⟩
      rintro ⟨lap, hlap, he, ht, -⟩
      rw [hget] at hlap
      injection hlap with hlap
      rw [hlap] at hcond
      rcases hcond with hc | hc
      · rw [he] at hc
        exact absurd hc (by simp)
      · rw [ht] at hc
        exact absurd hc (by simp)
    · rw [if_neg hcond]
      push_neg at hcond
      obtain ⟨he, ht⟩ := hcond
      replace he : (s.laps.getD (s.laps.length - 1) default).enabled = true := by
        simpa using he
      replace ht : (s.laps.getD (s.laps.length - 1) default).triggered = false := by
        simpa using ht
      by_cases hth : (s.laps.getD (s.laps.length - 1) default).alarmDuration ≤
          getLapElapsedTime s now (s.laps.length - 1)
      · rw [if_pos hth]
        exact ⟨⟨fun _ => ⟨_, hget, he, ht, hth⟩, fun _ => rfl⟩,
               fun _ => ⟨rfl, rfl, rfl, rfl, rfl⟩, fun hf => by simp at hf⟩
      · rw [if_neg hth]
        refine ⟨⟨fun hf => by simp at hf, ?_⟩, fun hf => by simp at hf, fun _ => rfl⟩
        rintro ⟨lap, hlap, he2, ht2, hth2⟩
        rw [hget] at hlap
        injection hlap with hlap
        rw [hlap] at hth
        exact absurd hth2 hth

theorem alarm_eval_active_lap_only_witness :
    (checkLapAlarms (startStopwatch initState 0) 60000).2 = true ∧
    (checkLapAlarms (startStopwatch initState 0) 59999).2 = false ∧
    (checkLapAlarms (startStopwatch initState 0) 59999).1 = startStopwatch initState 0 :=
  ⟨(alarm_eval_active_lap_only (startStopwatch initState 0) 60000).1.mpr
     ⟨{ createdAt := 0, recordedTime := 0, alarmDuration := 60000,
        triggered := false, enabled := true, isRecorded := false },
      by decide, by decide, by decide, by decide⟩,
   by decide,
   (alarm_eval_active_lap_only (startStopwatch initState 0) 59999).2.2 (by decide)⟩

theorem list_getD_set_self {α : Type} [Inhabited α] (l : List α) (i : Nat) (x : α)
    (h : i < l.length) : (l.set i x).getD i default = x := by
  rw [List.getD_eq_getD_get?, List.get?_set_eq_of_lt _ h]
  rfl

theorem list_getD_set_ne {α : Type} [Inhabited α] (l : List α) (i j : Nat) (x : α)
    (h : i ≠ j) : (l.set i x).getD j default = l.getD j default := by
  rw [List.getD_eq_getD_get?, List.get?_set_ne _ _ h, ← List.getD_eq_getD_get?]

theorem list_get?_append_left {α : Type} (l m : List α) (i : Nat) (h : i < l.length) :
    (l ++ m).get? i = l.get? i := by
  induction l generalizing i with
  | nil => simp at h
  | cons a t ih =>
    cases i with
    | zero => rfl
    | succ n => exact ih n (by simpa using h)

theorem closeLap_isRecorded (lap : Lap) (r : Int) : (closeLap lap r).isRecorded = true := by
  unfold closeLap
  by_cases h : lap.isRecorded = false
  · rw [if_pos h]
  · rw [if_neg h]
    simpa using h

theorem closeLap_enabled (lap : Lap) (r : Int) : (closeLap lap r).enabled = false := by
  unfold closeLap
  by_cases h : lap.isRecorded = false
  · rw [if_pos h]
  · rw [if_neg h]

theorem startStopwatch_laps (s : StopwatchState) (now : Int) :
    (startStopwatch s now).laps = s.laps ∨
    (s.laps.length = 0 ∧
      (startStopwatch s now).laps
        = [{ createdAt := now, recordedTime := 0, alarmDuration := defaultDurationFor 0,
             triggered := false, enabled := true, isRecorded := false }]) := by
  by_cases hr : s.isRunning <;> by_cases hc : s.currentLapStartTime = none <;>
    by_cases hl : s.laps.length = 0 <;> simp [startStopwatch, hr, hc, hl]

theorem pauseStopwatch_laps (s : StopwatchState) : (pauseStopwatch s).laps = s.laps := by
  by_cases hr : s.isRunning <;> simp [pauseStopwatch, hr]

theorem updateStopwatchDisplay_fixed (s : StopwatchState) (now : Int) :
    (updateStopwatchDisplay s now).laps = s.laps ∧
    (updateStopwatchDisplay s now).isRunning = s.isRunning ∧
    (updateStopwatchDisplay s now).startTime = s.startTime := by
  by_cases hr : s.isRunning <;> simp [updateStopwatchDisplay, hr]

theorem createLap_laps_shape (s : StopwatchState) (now : Int) :
    (createLap s now).laps = s.laps ∨
    (s.laps.length = 0 ∧ ∃ nl, (createLap s now).laps = [nl]) ∨
    (0 < s.laps.length ∧ ∃ nl r,
      (createLap s now).laps =
        (s.laps.set (s.laps.length - 1)
          (closeLap (s.laps.getD (s.laps.length - 1) default) r)) ++ [nl]) := by
  by_cases hg : s.isRunning = false ∧ s.laps.length = 0
  · left
    simp [createLap, hg]
  · by_cases hl : 0 < s.laps.length
    · right; right
      refine ⟨hl, ?_⟩
      have h2 : (createLap s now).laps =
          (s.laps.set (s.laps.length - 1)
            (closeLap (s.laps.getD (s.laps.length - 1) default)
              (currentLapRecordedTime s now))) ++
          [{ createdAt := now, recordedTime := 0,
             alarmDuration := defaultDurationFor s.laps.length,
             triggered := false, enabled := true, isRecorded := false }] := by
        have hne : ¬(s.isRunning = false ∧ s.laps = []) := by
          simpa [List.length_eq_zero] using hg
        simp [createLap, hne, hl]
      exact ⟨_, _, h2⟩
    · right; left
      have h0 : s.laps.length = 0 := by omega
      have hnil : s.laps = [] := List.length_eq_zero.mp h0
      have hr : s.isRunning = true := by
        by_contra hcon
        exact hg ⟨by simpa using hcon, h0⟩
      have h2 : (createLap s now).laps =
          [{ createdAt := now, recordedTime := 0,
             alarmDuration := defaultDurationFor 0,
             triggered := false, enabled := true, isRecorded := false }] := by
        simp [createLap, hnil, hr]
      exact ⟨h0, _, h2⟩

theorem checkLapAlarms_shape (s : StopwatchState) (now : Int) :
    ((checkLapAlarms s now).1 = s ∧ (checkLapAlarms s now).2 = false) ∨
    (0 < s.laps.length ∧
     (s.laps.getD (s.laps.length - 1) default).enabled = true ∧
     (s.laps.getD (s.laps.length - 1) default).triggered = false ∧
     (checkLapAlarms s now).2 = true ∧
     (checkLapAlarms s now).1.laps =
       s.laps.set (s.laps.length - 1)
         ({ s.laps.getD (s.laps.length - 1) default with triggered := true })) := by
  simp only [checkLapAlarms]
  by_cases h0 : s.laps.length = 0
  · rw [if_pos h0]
    exact Or.inl ⟨rfl, rfl⟩
  · rw [if_neg h0]
    by_cases hc : (s.laps.getD (s.laps.length - 1) default).enabled = false ∨
        (s.laps.getD (s.laps.length - 1) default).triggered = true
    · rw [if_pos hc]
      exact Or.inl ⟨rfl, rfl⟩
    · rw [if_neg hc]
      push_neg at hc
      obtain ⟨he, ht⟩ := hc
      by_cases hth : (s.laps.getD (s.laps.length - 1) default).alarmDuration ≤
          getLapElapsedTime s now (s.laps.length - 1)
      · rw [if_pos hth]
        exact Or.inr ⟨by omega, by simpa using he, by simpa using ht, rfl, rfl⟩
      · rw [if_neg hth]
        exact Or.inl ⟨rfl, rfl⟩

theorem toggleLapAlarm_laps (s : StopwatchState) (j : Nat) :
    (toggleLapAlarm s j).laps = s.laps ∨
    (j < s.laps.length ∧
      (toggleLapAlarm s j).laps =
        s.laps.set j ({ s.laps.getD j default with
                        enabled := !(s.laps.getD j default).enabled,
                        triggered := false })) := by
  by_cases hj : j < s.laps.length
  · right
    exact ⟨hj, by simp [toggleLapAlarm, hj]⟩
  · left
    simp [toggleLapAlarm, hj]

theorem updateLapAlarmDuration_laps (s : StopwatchState) (j : Nat) (d : Int) :
    (updateLapAlarmDuration s j d).laps = s.laps ∨
    (j < s.laps.length ∧
      (updateLapAlarmDuration s j d).laps =
        s.laps.set j ({ s.laps.getD j default with
                        alarmDuration := d, triggered := false })) := by
  by_cases hj : j < s.laps.length
  · right
    exact ⟨hj, by simp [updateLapAlarmDuration, hj]⟩
  · left
    simp [updateLapAlarmDuration, hj]

/-- All ledger records except possibly the last are closed. -/
def allButLastClosed (laps : List Lap) : Prop :=
  ∀ i, i + 1 < laps.length → (laps.getD i default).isRecorded = true

theorem allButLastClosed_set_same_rec (laps : List Lap) (j : Nat) (lap2 : Lap)
    (h : allButLastClosed laps)
    (h2 : lap2.isRecorded = (laps.getD j default).isRecorded) :
    allButLastClosed (laps.set j lap2) := by
  intro i hi
  rw [List.length_set] at hi
  by_cases hij : j = i
  · subst hij
    by_cases hjl : j < laps.length
    · rw [list_getD_set_self _ _ _ hjl, h2]
      exact h j hi
    · rw [List.set_eq_of_length_le (by omega)]
      exact h j hi
  · rw [list_getD_set_ne _ _ _ _ hij]
    exact h i hi

theorem allButLastClosed_close_append (laps : List Lap) (r : Int) (nl : Lap)
    (h : allButLastClosed laps) (hlen : 0 < laps.length) :
    allButLastClosed
      ((laps.set (laps.length - 1) (closeLap (laps.getD (laps.length - 1) default) r))
        ++ [nl]) := by
  intro i hi
  rw [List.length_append, List.length_set] at hi
  have hi2 : i < laps.length := by simpa using hi
  rw [List.getD_append _ _ _ _ (by rw [List.length_set]; omega)]
  by_cases hil : i = laps.length - 1
  · subst hil
    rw [list_getD_set_self _ _ _ (by omega)]
    exact closeLap_isRecorded _ _
  · rw [list_getD_set_ne _ _ _ _ (by omega)]
    exact h i (by omega)

theorem stepFired_allButLastClosed (s : StopwatchState) (a : UserAction)
    (h : allButLastClosed s.laps) : allButLastClosed (stepFired s a).1.laps := by
  cases a with
  | start now =>
    rcases startStopwatch_laps s now with hL | ⟨-, hL⟩
    · rw [stepFired, hL]; exact h
    · rw [stepFired, hL]; intro i hi; simp at hi
  | pause =>
    rw [stepFired, pauseStopwatch_laps]; exact h
  | reset =>
    intro i hi; simp [stepFired, resetStopwatch] at hi
  | lap now =>
    rcases createLap_laps_shape s now with hL | ⟨-, nl, hL⟩ | ⟨hl, nl, r, hL⟩
    · rw [stepFired, hL]; exact h
    · rw [stepFired, hL]; intro i hi; simp at hi
    · rw [stepFired, hL]
      exact allButLastClosed_close_append _ _ _ h hl
  | tick now =>
    have hd := (updateStopwatchDisplay_fixed s now).1
    rcases checkLapAlarms_shape (updateStopwatchDisplay s now) now with ⟨hL, -⟩ | ⟨-, -, -, -, hL⟩
    · show allButLastClosed (checkLapAlarms (updateStopwatchDisplay s now) now).1.laps
      rw [hL, hd]; exact h
    · show allButLastClosed (checkLapAlarms (updateStopwatchDisplay s now) now).1.laps
      rw [hL, hd]
      refine allButLastClosed_set_same_rec _ _ _ h rfl
  | setDuration j d =>
    rcases updateLapAlarmDuration_laps s j d with hL | ⟨-, hL⟩
    · rw [stepFired, hL]; exact h
    · rw [stepFired, hL]
      exact allButLastClosed_set_same_rec _ _ _ h rfl
  | toggle j =>
    rcases toggleLapAlarm_laps s j with hL | ⟨-, hL⟩
    · rw [stepFired, hL]; exact h
    · rw [stepFired, hL]
      exact allButLastClosed_set_same_rec _ _ _ h rfl

theorem runActions_allButLastClosed (s : StopwatchState) (acts : List UserAction)
    (h : allButLastClosed s.laps) : allButLastClosed (runActions s acts).laps := by
  induction acts generalizing s with
  | nil => exact h
  | cons a rest ih => exact ih _ (stepFired_allButLastClosed s a h)

/-- Claim C6: for every event sequence from the initial state (covering in
particular all sequences of start, pause, recordLap and reset), at most
one ledger record is open (`isRecorded = false`) at any time, and any
open record is the last element. -/
theorem ledger_single_active_lap (acts : List UserAction) :
    (∀ i j, i < (runActions initState acts).laps.length →
      j < (runActions initState acts).laps.length →
      ((runActions initState acts).laps.getD i default).isRecorded = false →
      ((runActions initState acts).laps.getD j default).isRecorded = false → i = j) ∧
    (∀ i, i < (runActions initState acts).laps.length →
      ((runActions initState acts).laps.getD i default).isRecorded = false →
      i = (runActions initState acts).laps.length - 1) := by
  have hinv : allButLastClosed (runActions initState acts).laps :=
    runActions_allButLastClosed initState acts (by intro i hi; simp [initState] at hi)
  constructor
  · intro i j hi hj hoi hoj
    have h1 : ¬ (i + 1 < (runActions initState acts).laps.length) := by
      intro hcon
      rw [hinv i hcon] at hoi
      exact absurd hoi (by simp)
    have h2 : ¬ (j + 1 < (runActions initState acts).laps.length) := by
      intro hcon
      rw [hinv j hcon] at hoj
      exact absurd hoj (by simp)
    omega
  · intro i hi hoi
    have h1 : ¬ (i + 1 < (runActions initState acts).laps.length) := by
      intro hcon
      rw [hinv i hcon] at hoi
      exact absurd hoi (by simp)
    omega

theorem ledger_single_active_lap_witness :
    (runActions initState [.start 0, .lap 400, .pause, .lap 900]).laps.length = 3 ∧
    ((runActions initState [.start 0, .lap 400, .pause, .lap 900]).laps.getD 2
      default).isRecorded = false ∧
    (2 : Nat) = (runActions initState [.start 0, .lap 400, .pause, .lap 900]).laps.length - 1 :=
  ⟨by decide, by decide,
   (ledger_single_active_lap [.start 0, .lap 400, .pause, .lap 900]).2 2
     (by decide) (by decide)⟩

theorem list_get?_lt {α : Type} {l : List α} {i : Nat} {a : α}
    (h : l.get? i = some a) : i < l.length := by
  by_contra hcon
  rw [List.get?_eq_none.mpr (by omega)] at h
  cases h

theorem list_getD_of_get? {α : Type} [Inhabited α] {l : List α} {i : Nat} {a : α}
    (h : l.get? i = some a) : l.getD i default = a := by
  rw [List.getD_eq_getD_get?, h]
  rfl

theorem step_tick_get? (s : StopwatchState) (now : Int) (i : Nat) (lap : Lap)
    (h : s.laps.get? i = some lap) :
    ∃ lap2, (stepFired s (.tick now)).1.laps.get? i = some lap2 ∧
      lap2.recordedTime = lap.recordedTime ∧ lap2.isRecorded = lap.isRecorded := by
  have hd := (updateStopwatchDisplay_fixed s now).1
  have hlt : i < s.laps.length := list_get?_lt h
  show ∃ lap2, (checkLapAlarms (updateStopwatchDisplay s now) now).1.laps.get? i = some lap2 ∧
      lap2.recordedTime = lap.recordedTime ∧ lap2.isRecorded = lap.isRecorded
  rcases checkLapAlarms_shape (updateStopwatchDisplay s now) now with ⟨hL, -⟩ | ⟨-, -, -, -, hL⟩
  · refine ⟨lap, ?_, rfl, rfl⟩
    rw [hL, hd]
    exact h
  · rw [hd] at hL
    by_cases hil : i = s.laps.length - 1
    · refine ⟨{ s.laps.getD (s.laps.length - 1) default with triggered := true },
        ?_, ?_, ?_⟩
      · rw [hL, hil]
        exact List.get?_set_eq_of_lt _ (by omega)
      · have := list_getD_of_get? h
        rw [hil] at this
        rw [this]
      · have := list_getD_of_get? h
        rw [hil] at this
        rw [this]
    · refine ⟨lap, ?_, rfl, rfl⟩
      rw [hL, List.get?_set_ne _ _ (by omega)]
      exact h

theorem ticks_preserve_lap_record (s : StopwatchState) (i : Nat) (lap : Lap)
    (nows : List Int) (h : s.laps.get? i = some lap) :
    ∃ lap2, (runActions s (nows.map UserAction.tick)).laps.get? i = some lap2 ∧
      lap2.recordedTime = lap.recordedTime ∧ lap2.isRecorded = lap.isRecorded := by
  induction nows generalizing s lap with
  | nil => exact ⟨lap, h, rfl, rfl⟩
  | cons n rest ih =>
    obtain ⟨lap2, h2, hr2, hc2⟩ := step_tick_get? s n i lap h
    obtain ⟨lap3, h3, hr3, hc3⟩ := ih _ _ h2
    exact ⟨lap3, h3, hr3.trans hr2, hc3.trans hc2⟩

/-- Claim C7 counterexample: in a reachable state (start at `t = 0`,
record a lap at `t = 1000`, clock still running) lap 0 is closed
(`isRecorded = true`) with its closing value `1000` frozen into
`recordedTime` — yet `getLapElapsedTime(0, now)` returns `2000` at
`now = 2000` and `3000` at `now = 3000`: the function keeps advancing
with `now` for a closed lap instead of returning a frozen value. -/
theorem closed_lap_elapsed_advances_cex :
    ((createLap (startStopwatch initState 0) 1000).laps.getD 0 default).isRecorded = true ∧
    ((createLap (startStopwatch initState 0) 1000).laps.getD 0 default).recordedTime = 1000 ∧
    getLapElapsedTime (createLap (startStopwatch initState 0) 1000) 2000 0 = 2000 ∧
    getLapElapsedTime (createLap (startStopwatch initState 0) 1000) 3000 0 = 3000 ∧
    (2000 : Int) ≠ 3000 := by
  decide

/-- Claim C7 amended: the value frozen at a lap's closing time lives in
the record's `recordedTime` field, not in `getLapElapsedTime`: for every
closed lap, any sequence of later ticks (with arbitrarily advancing
`now`s) leaves `recordedTime` unchanged and the lap closed, while
`getLapElapsedTime` for that lap keeps depending on `now`
(`closed_lap_elapsed_advances_cex`). -/
theorem closed_lap_recordedTime_frozen (s : StopwatchState) (i : Nat) (lap : Lap)
    (nows : List Int) (h : s.laps.get? i = some lap) (hc : lap.isRecorded = true) :
    ∃ lap2, (runActions s (nows.map UserAction.tick)).laps.get? i = some lap2 ∧
      lap2.recordedTime = lap.recordedTime ∧ lap2.isRecorded = true := by
  obtain ⟨lap2, h2, hr, hrec⟩ := ticks_preserve_lap_record s i lap nows h
  exact ⟨lap2, h2, hr, by rw [hrec, hc]⟩

theorem closed_lap_recordedTime_frozen_witness :
    ∃ lap2, (runActions (createLap (startStopwatch initState 0) 1000)
        ([2000, 3000].map UserAction.tick)).laps.get? 0 = some lap2 ∧
      lap2.recordedTime = 1000 ∧ lap2.isRecorded = true :=
  closed_lap_recordedTime_frozen (createLap (startStopwatch initState 0) 1000) 0
    { createdAt := 0, recordedTime := 1000, alarmDuration := 60000,
      triggered := false, enabled := false, isRecorded := true }
    [2000, 3000] (by decide) (by decide)

/-- Lap `i` exists and its alarm is latched shut: either already
triggered, or disabled. Such a lap can never fire. -/
def firedLatched (s : StopwatchState) (i : Nat) : Prop :=
  ∃ lap, s.laps.get? i = some lap ∧ (lap.triggered = true ∨ lap.enabled = false)

theorem firedLatch_step (s : StopwatchState) (a : UserAction) (i : Nat)
    (h : firedLatched s i) (ha : preservesFiredLatch i a = true) :
    firedLatched (stepFired s a).1 i ∧ (stepFired s a).2 ≠ some i := by
  obtain ⟨lap, hget, hlatch⟩ := h
  have hlt : i < s.laps.length := list_get?_lt hget
  cases a with
  | start now =>
    refine ⟨?_, by simp [stepFired]⟩
    show firedLatched (startStopwatch s now) i
    rcases startStopwatch_laps s now with hL | ⟨h0, -⟩
    · exact ⟨lap, by rw [hL]; exact hget, hlatch⟩
    · omega
  | pause =>
    refine ⟨?_, by simp [stepFired]⟩
    show firedLatched (pauseStopwatch s) i
    exact ⟨lap, by rw [pauseStopwatch_laps]; exact hget, hlatch⟩
  | reset => simp [preservesFiredLatch] at ha
  | lap now =>
    refine ⟨?_, by simp [stepFired]⟩
    show firedLatched (createLap s now) i
    rcases createLap_laps_shape s now with hL | ⟨h0, -⟩ | ⟨h0, nl, r, hL⟩
    · exact ⟨lap, by rw [hL]; exact hget, hlatch⟩
    · omega
    · by_cases hil : i = s.laps.length - 1
      · refine ⟨closeLap (s.laps.getD (s.laps.length - 1) default) r, ?_,
          Or.inr (closeLap_enabled _ _)⟩
        rw [hL, list_get?_append_left _ _ _ (by rw [List.length_set]; omega), hil]
        exact List.get?_set_eq_of_lt _ (by omega)
      · refine ⟨lap, ?_, hlatch⟩
        rw [hL, list_get?_append_left _ _ _ (by rw [List.length_set]; omega),
          List.get?_set_ne _ _ (by omega)]
        exact hget
  | tick now =>
    have hd := (updateStopwatchDisplay_fixed s now).1
    rcases checkLapAlarms_shape (updateStopwatchDisplay s now) now with
      ⟨hL, hb⟩ | ⟨hlen, he, ht, hb, hL⟩
    · constructor
      · show firedLatched (checkLapAlarms (updateStopwatchDisplay s now) now).1 i
        refine ⟨lap, ?_, hlatch⟩
        rw [hL, hd]
        exact hget
      · show (if (checkLapAlarms (updateStopwatchDisplay s now) now).2 = true then
            some ((updateStopwatchDisplay s now).laps.length - 1) else none) ≠ some i
        rw [hb]
        simp
    · rw [hd] at hL hlen he ht
      have hil : i ≠ s.laps.length - 1 := by
        intro hcon
        have hgd : s.laps.getD i default = lap := list_getD_of_get? hget
        rw [hcon] at hgd
        rw [hgd] at he ht
        rcases hlatch with hx | hx
        · rw [hx] at ht
          cases ht
        · rw [hx] at he
          cases he
      constructor
      · show firedLatched (checkLapAlarms (updateStopwatchDisplay s now) now).1 i
        refine ⟨lap, ?_, hlatch⟩
        rw [hL, List.get?_set_ne _ _ (by omega)]
        exact hget
      · show (if (checkLapAlarms (updateStopwatchDisplay s now) now).2 = true then
            some ((updateStopwatchDisplay s now).laps.length - 1) else none) ≠ some i
        rw [hb, hd]
        simp
        omega
  | setDuration j d =>
    have hji : j ≠ i := by simpa [preservesFiredLatch] using ha
    refine ⟨?_, by simp [stepFired]⟩
    show firedLatched (updateLapAlarmDuration s j d) i
    rcases updateLapAlarmDuration_laps s j d with hL | ⟨-, hL⟩
    · exact ⟨lap, by rw [hL]; exact hget, hlatch⟩
    · refine ⟨lap, ?_, hlatch⟩
      rw [hL, List.get?_set_ne _ _ hji]
      exact hget
  | toggle j =>
    have hji : j ≠ i := by simpa [preservesFiredLatch] using ha
    refine ⟨?_, by simp [stepFired]⟩
    show firedLatched (toggleLapAlarm s j) i
    rcases toggleLapAlarm_laps s j with hL | ⟨-, hL⟩
    · exact ⟨lap, by rw [hL]; exact hget, hlatch⟩
    · refine ⟨lap, ?_, hlatch⟩
      rw [hL, List.get?_set_ne _ _ hji]
      exact hget

theorem firedLatch_run (s : StopwatchState) (i : Nat) (h : firedLatched s i)
    (acts : List UserAction) (hall : acts.all (preservesFiredLatch i) = true) :
    firesAt s acts i = false := by
  induction acts generalizing s with
  | nil => rfl
  | cons a rest ih =>
    rw [List.all_cons, Bool.and_eq_true] at hall
    obtain ⟨h1, h2⟩ := firedLatch_step s a i h hall.1
    have hbeq : ((stepFired s a).2 == some i) = false := by
      rw [beq_eq_false_iff_ne]
      exact h2
    show (((stepFired s a).2 == some i) || firesAt (stepFired s a).1 rest i) = false
    rw [hbeq, Bool.false_or]
    exact ih _ h1 hall.2

/-- Claim C3: once lap `i` has `triggered = true`, no later sequence of
events that keeps the lap alive and its latch untouched (anything except
`reset`, which destroys the lap, and `toggle i` / `setDuration i`, which
by design re-open it) ever invokes playback for lap `i` again; and both
`updateLapAlarmDuration` and `toggleLapAlarm` on an in-range lap do clear
its `triggered` flag. -/
theorem alarm_fires_at_most_once_per_cycle (i : Nat) :
    (∀ s lap acts, s.laps.get? i = some lap → lap.triggered = true →
      acts.all (preservesFiredLatch i) = true → firesAt s acts i = false) ∧
    (∀ s d, i < s.laps.length →
      ((updateLapAlarmDuration s i d).laps.getD i default).triggered = false) ∧
    (∀ s, i < s.laps.length →
      ((toggleLapAlarm s i).laps.getD i default).triggered = false) := by
  refine ⟨?_, ?_, ?_⟩
  · intro s lap acts hget htrig hall
    exact firedLatch_run s i ⟨lap, hget, Or.inl htrig⟩ acts hall
  · intro s d hlt
    have h2 : (updateLapAlarmDuration s i d).laps =
        s.laps.set i ({ s.laps.getD i default with
                        alarmDuration := d, triggered := false }) := by
      simp [updateLapAlarmDuration, hlt]
    rw [h2, list_getD_set_self _ _ _ hlt]
  · intro s hlt
    have h2 : (toggleLapAlarm s i).laps =
        s.laps.set i ({ s.laps.getD i default with
                        enabled := !(s.laps.getD i default).enabled,
                        triggered := false }) := by
      simp [toggleLapAlarm, hlt]
    rw [h2, list_getD_set_self _ _ _ hlt]

theorem alarm_fires_at_most_once_per_cycle_witness :
    firesAt (runActions initState [.start 0, .tick 60000])
      [.tick 70000, .pause, .start 80000, .tick 90000] 0 = false :=
  (alarm_fires_at_most_once_per_cycle 0).1
    (runActions initState [.start 0, .tick 60000])
    { createdAt := 0, recordedTime := 0, alarmDuration := 60000,
      triggered := true, enabled := true, isRecorded := false }
    [.tick 70000, .pause, .start 80000, .tick 90000]
    (by decide) (by decide) (by decide)

theorem resume_preserves_elapsed_witness :
    ((pauseStopwatch (updateStopwatchDisplay (startStopwatch initState 0) 1000)).isRunning
      = false) ∧
    ((startStopwatch (pauseStopwatch (updateStopwatchDisplay (startStopwatch initState 0)
        1000)) 11000).startTime
      = some (11000 - (pauseStopwatch (updateStopwatchDisplay (startStopwatch initState 0)
        1000)).pausedTime) ∧
     (startStopwatch (pauseStopwatch (updateStopwatchDisplay (startStopwatch initState 0)
        1000)) 11000).isRunning = true ∧
     (updateStopwatchDisplay (startStopwatch (pauseStopwatch (updateStopwatchDisplay
        (startStopwatch initState 0) 1000)) 11000) 11000).elapsedTime
      = (pauseStopwatch (updateStopwatchDisplay (startStopwatch initState 0)
        1000)).pausedTime) :=
  ⟨by decide,
   resume_preserves_elapsed
     (pauseStopwatch (updateStopwatchDisplay (startStopwatch initState 0) 1000)) 11000
     (by decide)⟩
